import Mathlib

/-!
Verification of the retro-hunter boundary layer: the reverse-proxy gateway
(`frontend/app/api/[...path]/route.ts`) and the concurrent resource-loading
orchestrator (`frontend/app/(app)/analysis/page.tsx` and
`frontend/app/(app)/page.tsx`), shallowly embedded in Lean.
-/

namespace RetroHunter

/-! ## Headers

A header collection models the runtime `Headers` object after its own
normalisation: entries are `(name, value)` pairs with names already
lowercased and duplicate names already combined by the runtime, in order.
`hdrGet`, `hdrDelete`, `hdrSet` embed `Headers.get`, `Headers.delete`,
`Headers.set`. -/

abbrev HeaderList := List (String × String)

/-- `Headers.get`: the value of the first entry with the given name. -/
def hdrGet (n : String) : HeaderList → Option String
  | [] => none
  | p :: t => if p.1 = n then some p.2 else hdrGet n t

/-- `Headers.delete`: remove every entry with the given name. -/
def hdrDelete (n : String) : HeaderList → HeaderList
  | [] => []
  | p :: t => if p.1 = n then hdrDelete n t else p :: hdrDelete n t

/-- `Headers.set`: replace every entry with the given name by the single
new entry. -/
def hdrSet (n v : String) (h : HeaderList) : HeaderList :=
  hdrDelete n h ++ [(n, v)]

/-! ## The gateway (`proxy` in route.ts) -/

/-- An inbound request as the route handler sees it: the method, the
`[...path]` route parameter (`none` when the params object carries no
`path` entry), the `url.search` component (leading `?` included, `""`
when absent), the normalised header list, and the raw body bytes. -/
structure InboundRequest where
  method : String
  pathParam : Option (List String)
  search : String
  headers : HeaderList
  bodyBytes : List Nat
deriving Repr, DecidableEq

/-- The request the gateway hands to `fetch`. -/
structure OutboundRequest where
  target : String
  method : String
  headers : HeaderList
  body : Option (List Nat)
deriving Repr, DecidableEq

/-- An upstream response as `fetch` resolves it. -/
structure UpstreamResponse where
  status : Nat
  headers : HeaderList
  bodyStream : List Nat
deriving Repr, DecidableEq

/-- The response the route handler returns to the original caller. -/
structure RelayedResponse where
  status : Nat
  headers : HeaderList
  bodyStream : List Nat
deriving Repr, DecidableEq

/-- `getPathParts`: `(p?.path ?? []) as string[]`. -/
def getPathParts (pathParam : Option (List String)) : List String :=
  pathParam.getD []

/-- The fixed upstream authority and scheme baked into the route file. -/
def upstreamBase : String := "http://api:8000/"

/-- The target URL: `` `http://api:8000/${parts.join("/")}${url.search}` ``. -/
def buildTarget (req : InboundRequest) : String :=
  upstreamBase ++ String.intercalate "/" (getPathParts req.pathParam) ++ req.search

/-- Header preparation: copy inbound headers, delete `host` and
`connection`, then `set("accept", get("accept") ?? "application/json")`. -/
def proxyHeaders (h : HeaderList) : HeaderList :=
  hdrSet "accept"
    ((hdrGet "accept" (hdrDelete "connection" (hdrDelete "host" h))).getD
      "application/json")
    (hdrDelete "connection" (hdrDelete "host" h))

/-- Body selection: `undefined` for GET and HEAD, otherwise
`await req.arrayBuffer()` — the inbound bytes, untouched. -/
def proxyBody (req : InboundRequest) : Option (List Nat) :=
  if req.method != "GET" && req.method != "HEAD" then some req.bodyBytes
  else none

/-- The outbound request `proxy` builds before calling `fetch`. -/
def buildOutbound (req : InboundRequest) : OutboundRequest :=
  { target := buildTarget req
    method := req.method
    headers := proxyHeaders req.headers
    body := proxyBody req }

/-- The relayed response: `new Response(upstream.body, { status:
upstream.status, headers: new Headers(upstream.headers) })`. -/
def relayResponse (u : UpstreamResponse) : RelayedResponse :=
  { status := u.status, headers := u.headers, bodyStream := u.bodyStream }

/-- The whole of `proxy`, parameterised by the network (`fetch`) as a
function from the outbound request to the upstream response. -/
def proxy (req : InboundRequest) (net : OutboundRequest → UpstreamResponse) :
    RelayedResponse :=
  relayResponse (net (buildOutbound req))

/-- The route module's exported handlers, by method name: `GET`, `POST`,
`PUT`, `DELETE` and `PATCH` are exported, each delegating to `proxy`;
no other export exists. -/
def routeExports (m : String) :
    Option (InboundRequest → (OutboundRequest → UpstreamResponse) → RelayedResponse) :=
  if m == "GET" || m == "POST" || m == "PUT" || m == "DELETE" || m == "PATCH" then
    some proxy
  else none

/-! ## JSON values and JavaScript evaluation helpers -/

/-- A parsed JSON value (`await res.json()` output). Objects produced by
`JSON.parse` carry each key once (a duplicate key keeps the last value),
so embedded objects list every key once. -/
inductive Json where
  | null
  | bool (b : Bool)
  | num (n : Int)
  | str (s : String)
  | arr (xs : List Json)
  | obj (fields : List (String × Json))

/-- JavaScript truthiness of a JSON value (`NaN` is not producible by
`JSON.parse`). -/
def truthy : Json → Bool
  | .null => false
  | .bool b => b
  | .num n => n != 0
  | .str s => s != ""
  | .arr _ => true
  | .obj _ => true

/-- `data.name` on a parsed JSON value: a `TypeError` on `null`, the
field value on an object carrying the key, and `undefined` (rendered
`none`) otherwise. -/
def jsMember (name : String) : Json → Except String (Option Json)
  | .null => .error ("Cannot read properties of null (reading " ++ name ++ ")")
  | .obj fields => .ok ((fields.find? (fun p => p.1 == name)).map Prod.snd)
  | _ => .ok none

/-- `data.items`, the conventional record-sequence field. -/
def jsMemberItems (v : Json) : Except String (Option Json) :=
  jsMember "items" v

/-- `x || []`: keep `x` when defined and truthy, else a fresh `[]`. -/
def orEmptyList : Option Json → Json
  | some v => if truthy v then v else .arr []
  | none => .arr []

/-! ## `loadBlock` (analysis/page.tsx) -/

/-- A backend response as `loadBlock` consumes it: the status line, the
outcome of `res.text()` (`none` when it rejects) and the outcome of
`res.json()` (`Except.error` when the body is not parseable JSON,
carrying the runtime's parse-error message). -/
structure ApiResponse where
  status : Nat
  statusText : String
  textResult : Option String
  jsonResult : Except String Json

/-- `Response.ok` per the Fetch specification: status in 200..299. -/
def resOk (r : ApiResponse) : Bool :=
  200 ≤ r.status && r.status ≤ 299

/-- JavaScript `String.prototype.trim`: strip leading and trailing
whitespace (spelled out over the character list so it evaluates). -/
def jsTrim (s : String) : String :=
  ⟨((s.data.dropWhile Char.isWhitespace).reverse.dropWhile
      Char.isWhitespace).reverse⟩

/-- The error detail thrown on a non-success status:
`` `${res.status} ${res.statusText} ${msg}`.trim() `` where `msg` is the
body text, defaulted to `""` when `res.text()` rejects. -/
def errDetail (r : ApiResponse) : String :=
  jsTrim (toString r.status ++ " " ++ r.statusText ++ " " ++ r.textResult.getD "")

/-- `loadBlock`: throw the composed detail on a non-success status,
propagate a JSON parse failure, otherwise return `data.items || []`. -/
def loadBlock (r : ApiResponse) : Except String Json :=
  if resOk r then
    match r.jsonResult with
    | .error m => .error m
    | .ok data =>
      match jsMemberItems data with
      | .error m => .error m
      | .ok mv => .ok (orEmptyList mv)
  else .error (errDetail r)

/-! ## The analysis-page orchestrator (`run` / `wrap` / `alive`)

One run over `k` resources is modelled as a trace of atomic events
interleaved by the single-threaded event loop:
* `settle i o` — resource `i`'s `fn()` promise settles with outcome `o`
  and `wrap`'s continuation (alive check, then state write) runs;
* `cancel` — the effect cleanup sets `alive = false`;
* `allDone` — `Promise.all` resolves and the post-await continuation
  (alive check, then `setLoadingAll(false)`) runs.
-/

/-- The per-resource `BlockState` React cell. `items` holds the raw
JavaScript value `wrap` stored (the TypeScript annotation `Row[]` is not
enforced at runtime). -/
structure BlockState where
  loading : Bool
  items : Json
  error : Option String

/-- The observable state of one run: the eight-way (generally `k`-way)
per-resource states, the aggregate `loadingAll` flag, and the run's
liveness token `alive`. -/
structure OrchState (k : Nat) where
  blocks : Fin k → BlockState
  loadingAll : Bool
  alive : Bool

/-- The state every `wrap` call installs synchronously at run start:
`{ loading: true, items: [] }`. -/
def pendingBlock : BlockState :=
  { loading := true, items := .arr [], error := none }

/-- The terminal state `wrap` writes for a settled outcome: items on
success, `e?.message || "Error"` on failure. -/
def terminalBlock : Except String Json → BlockState
  | .ok items => { loading := false, items := items, error := none }
  | .error m =>
      { loading := false, items := .arr []
        error := some (if m == "" then "Error" else m) }

/-- The orchestrator state right after `run()` has executed its
synchronous prefix: all resources Pending, `loadingAll` true, token live. -/
def initOrch (k : Nat) : OrchState k :=
  { blocks := fun _ => pendingBlock, loadingAll := true, alive := true }

/-- One run event. -/
inductive Event (k : Nat) where
  | settle (i : Fin k) (outcome : Except String Json)
  | cancel
  | allDone

/-- `wrap`'s settle continuation: `if (!alive) return;` then write the
terminal state for this resource only. -/
def settleStep (s : OrchState k) (i : Fin k) (o : Except String Json) :
    OrchState k :=
  if s.alive then
    { s with blocks := fun j => if j = i then terminalBlock o else s.blocks j }
  else s

/-- The effect cleanup: `alive = false`. -/
def cancelStep (s : OrchState k) : OrchState k :=
  { s with alive := false }

/-- The post-`Promise.all` continuation: `if (!alive) return;
setLoadingAll(false)`. -/
def allDoneStep (s : OrchState k) : OrchState k :=
  if s.alive then { s with loadingAll := false } else s

/-- Execute one event. -/
def execStep (s : OrchState k) : Event k → OrchState k
  | .settle i o => settleStep s i o
  | .cancel => cancelStep s
  | .allDone => allDoneStep s

/-- Execute a trace of events in order. -/
def execTrace (s : OrchState k) : List (Event k) → OrchState k
  | [] => s
  | e :: es => execTrace (execStep s e) es

/-- Which resources have settled in the trace seen so far. -/
def settledIn (seen : List (Fin k)) (i : Fin k) : Bool :=
  seen.contains i

/-- Traces the event loop can actually produce for one run: each resource
settles at most once (one fetch per resource), and `Promise.all` resolves
only after every resource has settled. -/
def validFrom (seen : List (Fin k)) : List (Event k) → Bool
  | [] => true
  | .settle i _ :: es => !seen.contains i && validFrom (i :: seen) es
  | .cancel :: es => validFrom seen es
  | .allDone :: es =>
      (List.finRange k).all (fun i => seen.contains i) && validFrom seen es

/-- A valid run trace, starting from no resource settled. -/
def validTrace (tr : List (Event k)) : Bool :=
  validFrom [] tr

/-! ## The dashboard-page loader (`load` / `cancelled` in (app)/page.tsx)

`load` awaits `Promise.all([apiFetch("/overview/kpis"),
apiFetch("/overview/suspicious?limit=200")])`, checks `cancelled` once,
and then — still inside that check — awaits `kpiRes.json()` and
`suspRes.json()` before calling the state setters. The machine below
keeps each `await` as an explicit suspension point. -/

/-- `Number(x)` on the values the dashboard stores (`none` is `NaN`;
string and composite coercions are collapsed to `NaN`, no claim
depends on them). -/
def jsToNumber : Json → Option Int
  | .num n => some n
  | .null => some 0
  | .bool b => some (if b then 1 else 0)
  | _ => none

/-- One of the two responses `Promise.all` resolves with. -/
structure PageResp where
  ok : Bool
  status : Nat
  jsonResult : Except String Json

/-- Where `load` is currently suspended. -/
inductive PagePhase where
  | heads
  | kpiJson
  | suspJson
  | finished
deriving Repr, DecidableEq

/-- The dashboard page's observable React state plus the loader's
program counter and the `cancelled` flag. -/
structure PageState where
  kpis : Option Json
  items : List Json
  comparisonCnt : Option Int
  loading : Bool
  err : String
  cancelled : Bool
  phase : PagePhase

/-- State when the effect has started `load()`: `setLoading(true)` and
`setErr("")` have run, both fetches are in flight. -/
def initPage : PageState :=
  { kpis := none, items := [], comparisonCnt := some 0
    loading := true, err := "", cancelled := false, phase := .heads }

/-- The `finally` block: `if (!cancelled) setLoading(false)`. -/
def pageFinally (s : PageState) : PageState :=
  if s.cancelled then { s with phase := .finished }
  else { s with loading := false, phase := .finished }

/-- The `catch` block: `if (!cancelled) setErr(e?.message || "Failed to
load overview")`, then `finally`. -/
def pageCatch (m : String) (s : PageState) : PageState :=
  pageFinally
    (if s.cancelled then s
     else { s with err := if m == "" then "Failed to load overview" else m })

/-- The suspicious-response half of the guarded block: suspend at
`await suspRes.json()` when `suspRes.ok`, else write the empty fallback
and fall through to `finally`. -/
def pageSuspPart (suspRes : PageResp) (s : PageState) : PageState :=
  if suspRes.ok then { s with phase := .suspJson }
  else pageFinally { s with items := [], comparisonCnt := some 0 }

/-- `Promise.all` resolves: run the single `if (!cancelled)` check; on a
live run handle the KPI response head (suspending at `await
kpiRes.json()` when it was ok) — the check is not repeated later. -/
def pageHeadsStep (kpiRes suspRes : PageResp) (s : PageState) : PageState :=
  if s.cancelled then pageFinally s
  else if kpiRes.ok then { s with phase := .kpiJson }
  else pageSuspPart suspRes
    { s with err := "KPI request failed (" ++ toString kpiRes.status ++ ")" }

/-- `await kpiRes.json()` settles: `setKpis` runs with no further
`cancelled` check; a rejected body goes to `catch`. -/
def pageKpiJsonStep (kpiRes suspRes : PageResp) (s : PageState) : PageState :=
  match kpiRes.jsonResult with
  | .ok v => pageSuspPart suspRes { s with kpis := some v }
  | .error m => pageCatch m s

/-- `await suspRes.json()` settles: `setItems` and `setComparisonCnt`
run with no further `cancelled` check; a rejected body or a `TypeError`
from `data.items` goes to `catch`. -/
def pageSuspJsonStep (suspRes : PageResp) (s : PageState) : PageState :=
  match suspRes.jsonResult with
  | .error m => pageCatch m s
  | .ok data =>
    match jsMember "items" data with
    | .error m => pageCatch m s
    | .ok itemsv =>
      let items := match itemsv with
        | some (.arr xs) => xs
        | _ => []
      match jsMember "comparison_cnt" data with
      | .error m => pageCatch m { s with items := items }
      | .ok cntv =>
        let cval := match cntv with
          | some .null => Json.num 0
          | some v => v
          | none => Json.num 0
        pageFinally { s with items := items, comparisonCnt := jsToNumber cval }

/-- One event-loop step of the dashboard loader. -/
inductive PageEvent where
  | headsResolve
  | kpiJsonResolve
  | suspJsonResolve
  | cancel
deriving Repr, DecidableEq

/-- Execute one dashboard event; resolutions only fire at their
suspension point. -/
def pageStep (kpiRes suspRes : PageResp) (s : PageState) :
    PageEvent → PageState
  | .cancel => { s with cancelled := true }
  | .headsResolve =>
      if s.phase = .heads then pageHeadsStep kpiRes suspRes s else s
  | .kpiJsonResolve =>
      if s.phase = .kpiJson then pageKpiJsonStep kpiRes suspRes s else s
  | .suspJsonResolve =>
      if s.phase = .suspJson then pageSuspJsonStep suspRes s else s

/-- Execute a dashboard event trace from the initial state. -/
def pageExec (kpiRes suspRes : PageResp) (evs : List PageEvent) : PageState :=
  evs.foldl (pageStep kpiRes suspRes) initPage

/-! ## Concrete instances used to exercise the definitions -/

/-- A sample GET request to `/analysis/large-executables?limit=200`. -/
def sampleGet : InboundRequest :=
  { method := "GET"
    pathParam := some ["analysis", "large-executables"]
    search := "?limit=200"
    headers := [("host", "dash.local"), ("connection", "keep-alive"),
                ("x-token", "t1")]
    bodyBytes := [] }

/-- A sample POST request carrying a three-byte body and an explicit
accept header. -/
def samplePost : InboundRequest :=
  { method := "POST"
    pathParam := some ["analysis", "yara-rule"]
    search := ""
    headers := [("host", "dash.local"), ("accept", "text/plain"),
                ("content-type", "application/json")]
    bodyBytes := [123, 10, 125] }

/-- A sample request whose params object carries no `path` entry. -/
def sampleRootReq : InboundRequest :=
  { method := "GET", pathParam := none, search := "?q=1"
    headers := [], bodyBytes := [] }

/-- A sample non-success backend response (HTTP 500 with body text). -/
def sampleFailResp : ApiResponse :=
  { status := 500, statusText := "Internal Server Error"
    textResult := some "boom", jsonResult := .error "Unexpected token" }

/-- A success response whose JSON body is an object with no `items`
field. -/
def sampleNoItemsResp : ApiResponse :=
  { status := 200, statusText := "OK", textResult := some "\x7b\x7d"
    jsonResult := .ok (Json.obj [("foo", Json.num 1)]) }

/-- A success response whose body is not parseable JSON. -/
def sampleBadJsonResp : ApiResponse :=
  { status := 200, statusText := "OK", textResult := some "<html>"
    jsonResult := .error "Unexpected token < in JSON at position 0" }

/-- A successful KPI response for the dashboard loader. -/
def sampleKpiResp : PageResp :=
  { ok := true, status := 200
    jsonResult := .ok (Json.obj [("malware_matches", Json.num 1),
                                 ("total_files", Json.num 3)]) }

/-- A successful suspicious-files response for the dashboard loader. -/
def sampleSuspResp : PageResp :=
  { ok := true, status := 200
    jsonResult := .ok (Json.obj
      [("items", Json.arr [Json.obj [("host", Json.str "h1")]]),
       ("comparison_cnt", Json.num 5)]) }

/-- The dashboard trace in which the consumer cancels while the KPI
body is still in flight: both response heads arrive, the cleanup runs,
then both JSON bodies resolve. -/
def staleCancelTrace : List PageEvent :=
  [.headsResolve, .cancel, .kpiJsonResolve, .suspJsonResolve]

/-- An analysis run over two resources in which resource 0 loads,
resource 1 fails with an HTTP 500, and `Promise.all` then resolves. -/
def demoTrace : List (Event 2) :=
  [.settle 0 (.ok (Json.arr [Json.obj [("n", Json.num 1)]])),
   .settle 1 (.error "500 Internal Server Error"),
   .allDone]

/-! ## Header lemmas -/

theorem hdrGet_delete_self (n : String) (h : HeaderList) :
    hdrGet n (hdrDelete n h) = none := by
  induction h with
  | nil => rfl
  | cons p t ih =>
    by_cases hp : p.1 = n <;> simp [hdrDelete, hdrGet, hp, ih]

theorem hdrGet_delete_ne {n m : String} (hnm : n ≠ m) (h : HeaderList) :
    hdrGet n (hdrDelete m h) = hdrGet n h := by
  induction h with
  | nil => rfl
  | cons p t ih =>
    by_cases hp : p.1 = m
    · have hpn : p.1 ≠ n := by rw [hp]; exact Ne.symm hnm
      simp [hdrDelete, hdrGet, hp, hpn, Ne.symm hnm, ih]
    · by_cases hq : p.1 = n <;>
        simp [hdrDelete, hdrGet, hp, hq, hnm, Ne.symm hnm, ih]

theorem hdrGet_append (n : String) (h1 h2 : HeaderList) :
    hdrGet n (h1 ++ h2) =
      match hdrGet n h1 with
      | some v => some v
      | none => hdrGet n h2 := by
  induction h1 with
  | nil => rfl
  | cons p t ih =>
    by_cases hp : p.1 = n <;> simp [hdrGet, hp, ih]

theorem hdrGet_set_self (n v : String) (h : HeaderList) :
    hdrGet n (hdrSet n v h) = some v := by
  unfold hdrSet
  rw [hdrGet_append, hdrGet_delete_self]
  simp [hdrGet]

theorem hdrGet_set_ne {n m : String} (hnm : n ≠ m) (v : String)
    (h : HeaderList) : hdrGet n (hdrSet m v h) = hdrGet n h := by
  unfold hdrSet
  rw [hdrGet_append, hdrGet_delete_ne hnm]
  cases hg : hdrGet n h <;> simp [hdrGet, Ne.symm hnm]

/-! ## Gateway claims -/

/-- C3. For every inbound request, the outbound upstream request
contains no `host` and no `connection` header, contains an `accept`
header equal to the inbound accept value when one was supplied and
`application/json` otherwise, and every other inbound header is
forwarded unchanged. -/
theorem gateway_header_handling (req : InboundRequest) :
    hdrGet "host" (buildOutbound req).headers = none ∧
    hdrGet "connection" (buildOutbound req).headers = none ∧
    hdrGet "accept" (buildOutbound req).headers =
      some ((hdrGet "accept" req.headers).getD "application/json") ∧
    ∀ n, n ≠ "host" → n ≠ "connection" → n ≠ "accept" →
      hdrGet n (buildOutbound req).headers = hdrGet n req.headers := by
  refine ⟨?_, ?_, ?_, ?_⟩
  · show hdrGet "host" (proxyHeaders req.headers) = none
    unfold proxyHeaders
    rw [hdrGet_set_ne (by decide),
      hdrGet_delete_ne (by decide : ("host" : String) ≠ "connection"),
      hdrGet_delete_self]
  · show hdrGet "connection" (proxyHeaders req.headers) = none
    unfold proxyHeaders
    rw [hdrGet_set_ne (by decide), hdrGet_delete_self]
  · show hdrGet "accept" (proxyHeaders req.headers) = _
    unfold proxyHeaders
    rw [hdrGet_set_self,
      hdrGet_delete_ne (by decide : ("accept" : String) ≠ "connection"),
      hdrGet_delete_ne (by decide : ("accept" : String) ≠ "host")]
  · intro n hh hc ha
    show hdrGet n (proxyHeaders req.headers) = hdrGet n req.headers
    unfold proxyHeaders
    rw [hdrGet_set_ne ha, hdrGet_delete_ne hc, hdrGet_delete_ne hh]

/-- Witness for C3 at the sample GET request: its `x-token` header
survives unchanged while `host`/`connection` are gone and `accept`
defaults. -/
theorem gateway_header_handling_witness :
    hdrGet "host" (buildOutbound sampleGet).headers = none ∧
    hdrGet "accept" (buildOutbound sampleGet).headers =
      some "application/json" ∧
    hdrGet "x-token" (buildOutbound sampleGet).headers = some "t1" := by
  have h := gateway_header_handling sampleGet
  refine ⟨h.1, ?_, ?_⟩
  · rw [h.2.2.1]; rfl
  · rw [h.2.2.2 "x-token" (by decide) (by decide) (by decide)]; rfl

/-- C4. No body is read for GET and HEAD; for every other method the
outbound body is byte-for-byte the inbound body. -/
theorem gateway_body_forwarding (req : InboundRequest) :
    ((req.method = "GET" ∨ req.method = "HEAD") →
      (buildOutbound req).body = none) ∧
    (req.method ≠ "GET" → req.method ≠ "HEAD" →
      (buildOutbound req).body = some req.bodyBytes) := by
  constructor
  · rintro (h | h) <;>
      simp [buildOutbound, proxyBody, h]
  · intro h1 h2
    simp [buildOutbound, proxyBody, h1, h2]

/-- Witness for C4: the sample GET request forwards no body, the sample
POST request forwards exactly its three inbound bytes. -/
theorem gateway_body_forwarding_witness :
    (buildOutbound sampleGet).body = none ∧
    (buildOutbound samplePost).body = some [123, 10, 125] :=
  ⟨(gateway_body_forwarding sampleGet).1 (Or.inl rfl),
   (gateway_body_forwarding samplePost).2 (by decide) (by decide)⟩

/-- C5. The relayed response's status equals the upstream status
exactly, and the upstream body and headers are passed through without
transformation, whatever the upstream answered. -/
theorem gateway_status_relay (req : InboundRequest)
    (net : OutboundRequest → UpstreamResponse) :
    (proxy req net).status = (net (buildOutbound req)).status ∧
    (proxy req net).bodyStream = (net (buildOutbound req)).bodyStream ∧
    (proxy req net).headers = (net (buildOutbound req)).headers :=
  ⟨rfl, rfl, rfl⟩

/-- C6. The target URL is exactly the fixed scheme and authority,
followed by the inbound path segments joined unchanged and the full
inbound query string appended unchanged. -/
theorem gateway_target_url (req : InboundRequest) (parts : List String)
    (h : req.pathParam = some parts) :
    (buildOutbound req).target =
      "http://api:8000/" ++ String.intercalate "/" parts ++ req.search := by
  simp [buildOutbound, buildTarget, getPathParts, upstreamBase, h]

/-- Witness for C6 at the sample GET request. -/
theorem gateway_target_url_witness :
    (buildOutbound sampleGet).target =
      "http://api:8000/analysis/large-executables?limit=200" := by
  rw [gateway_target_url sampleGet ["analysis", "large-executables"] rfl]
  rfl

/-- C7 counterexample: the route module exports no `HEAD` handler, so
it is not the case that each of the six methods has a handler. -/
theorem route_head_handler_missing :
    routeExports "HEAD" = none ∧
    ¬ (∀ m, m ∈ ["GET", "HEAD", "POST", "PUT", "PATCH", "DELETE"] →
        (routeExports m).isSome = true) := by
  refine ⟨rfl, fun h => ?_⟩
  have := h "HEAD" (by simp)
  simp [routeExports] at this

/-- C7 amended: handlers exist for the five methods GET, POST, PUT,
DELETE and PATCH, each applying the same proxy behaviour; HEAD has no
exported handler of its own. -/
theorem route_method_handlers :
    routeExports "GET" = some proxy ∧
    routeExports "POST" = some proxy ∧
    routeExports "PUT" = some proxy ∧
    routeExports "DELETE" = some proxy ∧
    routeExports "PATCH" = some proxy :=
  ⟨rfl, rfl, rfl, rfl, rfl⟩

/-- C10. A request whose wildcard path parameter is absent resolves to
the empty segment list and is forwarded to the upstream root with the
inbound query string appended. -/
theorem gateway_empty_path (req : InboundRequest)
    (h : req.pathParam = none) :
    getPathParts req.pathParam = [] ∧
    (buildOutbound req).target = "http://api:8000/" ++ req.search := by
  constructor
  · rw [h]; rfl
  · show buildTarget req = _
    unfold buildTarget
    rw [h]
    show upstreamBase ++ String.intercalate "/" [] ++ req.search = _
    congr 1

/-- Witness for C10 at a request with no `path` params entry. -/
theorem gateway_empty_path_witness :
    (buildOutbound sampleRootReq).target = "http://api:8000/?q=1" := by
  rw [(gateway_empty_path sampleRootReq rfl).2]; rfl

/-! ## Orchestrator step lemmas -/

theorem settleStep_alive {k : Nat} (s : OrchState k) (i : Fin k)
    (o : Except String Json) : (settleStep s i o).alive = s.alive := by
  unfold settleStep; split <;> rfl

theorem settleStep_loadingAll {k : Nat} (s : OrchState k) (i : Fin k)
    (o : Except String Json) :
    (settleStep s i o).loadingAll = s.loadingAll := by
  unfold settleStep; split <;> rfl

theorem settleStep_of_alive {k : Nat} {s : OrchState k} (ha : s.alive = true)
    (i : Fin k) (o : Except String Json) :
    settleStep s i o =
      { s with blocks := fun j => if j = i then terminalBlock o
                                  else s.blocks j } := by
  unfold settleStep; rw [ha]; rfl

theorem settleStep_of_dead {k : Nat} {s : OrchState k} (ha : s.alive = false)
    (i : Fin k) (o : Except String Json) : settleStep s i o = s := by
  unfold settleStep; rw [ha]; rfl

theorem allDoneStep_alive {k : Nat} (s : OrchState k) :
    (allDoneStep s).alive = s.alive := by
  unfold allDoneStep; split <;> rfl

theorem allDoneStep_blocks {k : Nat} (s : OrchState k) :
    (allDoneStep s).blocks = s.blocks := by
  unfold allDoneStep; split <;> rfl

theorem allDoneStep_of_alive {k : Nat} {s : OrchState k}
    (ha : s.alive = true) :
    allDoneStep s = { s with loadingAll := false } := by
  unfold allDoneStep; rw [ha]; rfl

theorem allDoneStep_of_dead {k : Nat} {s : OrchState k}
    (ha : s.alive = false) : allDoneStep s = s := by
  unfold allDoneStep; rw [ha]; rfl

theorem terminalBlock_loading (o : Except String Json) :
    (terminalBlock o).loading = false := by
  cases o <;> rfl

theorem execTrace_append {k : Nat} (s : OrchState k)
    (l1 l2 : List (Event k)) :
    execTrace s (l1 ++ l2) = execTrace (execTrace s l1) l2 := by
  induction l1 generalizing s with
  | nil => rfl
  | cons e t ih => show execTrace (execStep s e) (t ++ l2) = _; rw [ih]; rfl

/-- Once the liveness token is false no event changes the observable
state: settles and `allDone` are discarded and another cancel is
idempotent. -/
theorem execStep_of_dead {k : Nat} {s : OrchState k} (hd : s.alive = false)
    (e : Event k) :
    (execStep s e).blocks = s.blocks ∧
    (execStep s e).loadingAll = s.loadingAll ∧
    (execStep s e).alive = false := by
  cases e with
  | settle i o => rw [show execStep s (.settle i o) = settleStep s i o from rfl,
      settleStep_of_dead hd]; exact ⟨rfl, rfl, hd⟩
  | cancel => exact ⟨rfl, rfl, rfl⟩
  | allDone => rw [show execStep s .allDone = allDoneStep s from rfl,
      allDoneStep_of_dead hd]; exact ⟨rfl, rfl, hd⟩

theorem execTrace_of_dead {k : Nat} {s : OrchState k} (hd : s.alive = false)
    (tr : List (Event k)) :
    (execTrace s tr).blocks = s.blocks ∧
    (execTrace s tr).loadingAll = s.loadingAll := by
  induction tr generalizing s with
  | nil => exact ⟨rfl, rfl⟩
  | cons e t ih =>
    obtain ⟨hb, hl, ha⟩ := execStep_of_dead hd e
    obtain ⟨hb2, hl2⟩ := ih ha
    exact ⟨hb2.trans hb, hl2.trans hl⟩

theorem execTrace_settles_alive {k : Nat} (l : List (Fin k))
    (f : Fin k → Except String Json) (s : OrchState k) :
    (execTrace s (l.map (fun r => Event.settle r (f r)))).alive = s.alive := by
  induction l generalizing s with
  | nil => rfl
  | cons a t ih =>
    rw [List.map_cons]
    show (execTrace (settleStep s a (f a)) _).alive = _
    rw [ih, settleStep_alive]

/-- The run invariant: along any producible trace, once `loadingAll`
has been observed false every resource has left `loading`. -/
theorem run_settled_invariant {k : Nat} (tr : List (Event k)) :
    ∀ (seen : List (Fin k)) (s : OrchState k),
      validFrom seen tr = true →
      (s.loadingAll = false → ∀ r, (s.blocks r).loading = false) →
      (s.alive = true → ∀ r, seen.contains r = true →
        (s.blocks r).loading = false) →
      (execTrace s tr).loadingAll = false →
      ∀ r, ((execTrace s tr).blocks r).loading = false := by
  induction tr with
  | nil =>
    intro seen s _ h1 _ hend
    exact h1 hend
  | cons e t ih =>
    intro seen s hval h1 h2
    cases e with
    | settle i o =>
      have hv : validFrom (i :: seen) t = true := by
        unfold validFrom at hval
        simp only [Bool.and_eq_true] at hval
        exact hval.2
      show (execTrace (settleStep s i o) t).loadingAll = false → _
      refine ih (i :: seen) (settleStep s i o) hv ?_ ?_
      · intro hla j
        rw [settleStep_loadingAll] at hla
        by_cases ha : s.alive = true
        · rw [settleStep_of_alive ha]
          by_cases hji : j = i
          · simp only [hji, if_pos rfl]
            exact terminalBlock_loading o
          · simp only [if_neg hji]
            exact h1 hla j
        · rw [settleStep_of_dead (by simpa using ha)]
          exact h1 hla j
      · intro ha' j hj
        rw [settleStep_alive] at ha'
        rw [settleStep_of_alive ha']
        by_cases hji : j = i
        · simp only [hji, if_pos rfl]
          exact terminalBlock_loading o
        · simp only [if_neg hji]
          have hj' : seen.contains j = true := by
            simp only [List.contains_cons, Bool.or_eq_true, beq_iff_eq] at hj
            rcases hj with h | h
            · exact absurd h hji
            · exact h
          exact h2 ha' j hj'
    | cancel =>
      have hv : validFrom seen t = true := hval
      show (execTrace (cancelStep s) t).loadingAll = false → _
      refine ih seen (cancelStep s) hv ?_ ?_
      · intro hla j
        exact h1 hla j
      · intro ha' j _
        exact absurd ha' (by simp [cancelStep])
    | allDone =>
      have hall : ∀ r : Fin k, seen.contains r = true := by
        unfold validFrom at hval
        simp only [Bool.and_eq_true] at hval
        intro r
        exact List.all_eq_true.mp hval.1 r (List.mem_finRange r)
      have hv : validFrom seen t = true := by
        unfold validFrom at hval
        simp only [Bool.and_eq_true] at hval
        exact hval.2
      show (execTrace (allDoneStep s) t).loadingAll = false → _
      refine ih seen (allDoneStep s) hv ?_ ?_
      · intro hla j
        by_cases ha : s.alive = true
        · rw [allDoneStep_of_alive ha]
          exact h2 ha j (hall j)
        · rw [allDoneStep_of_dead (by simpa using ha)] at hla ⊢
          exact h1 hla j
      · intro ha' j hj
        rw [allDoneStep_alive] at ha'
        rw [allDoneStep_blocks]
        exact h2 ha' j hj

/-! ## Orchestrator claims -/

/-- C1 (violated by the dashboard loader). In the overview page a
cancellation that lands between the single `cancelled` check and the
body `await`s does not stop the per-resource writes: after the trace
heads-resolve, cancel, kpi-json, susp-json, the KPI and suspicious-item
states have been written even though at cancellation time both were
still unsettled. -/
theorem dashboard_stale_write_after_cancel :
    (pageExec sampleKpiResp sampleSuspResp [.headsResolve, .cancel]).cancelled
        = true ∧
    (pageExec sampleKpiResp sampleSuspResp [.headsResolve, .cancel]).kpis
        = none ∧
    (pageExec sampleKpiResp sampleSuspResp [.headsResolve, .cancel]).items
        = [] ∧
    (pageExec sampleKpiResp sampleSuspResp staleCancelTrace).kpis =
      some (Json.obj [("malware_matches", Json.num 1),
                      ("total_files", Json.num 3)]) ∧
    (pageExec sampleKpiResp sampleSuspResp staleCancelTrace).items =
      [Json.obj [("host", Json.str "h1")]] ∧
    (pageExec sampleKpiResp sampleSuspResp staleCancelTrace).comparisonCnt =
      some 5 ∧
    (pageExec sampleKpiResp sampleSuspResp staleCancelTrace).cancelled
        = true :=
  ⟨rfl, rfl, rfl, rfl, rfl, rfl, rfl⟩

/-- C1 contrast: the analysis-page orchestrator does discard late
completions — when `cancel` precedes every settle, no per-resource
state and not the aggregate flag changes however the `k` fetches later
settle. -/
theorem analysis_cancel_discards_late_settles {k : Nat}
    (evs : List (Event k)) :
    (execTrace (initOrch k) (Event.cancel :: evs)).blocks =
      (initOrch k).blocks ∧
    (execTrace (initOrch k) (Event.cancel :: evs)).loadingAll = true := by
  have hd : (cancelStep (initOrch k)).alive = false := rfl
  obtain ⟨hb, hl⟩ := execTrace_of_dead hd evs
  exact ⟨hb, hl⟩

/-- C2. (a) Along any producible trace of a run, `loadingAll` is false
only once every resource has left `loading` (reached Loaded or Failed);
(b) a run in which every resource settles — with any mix of successes
and failures — and `Promise.all` then resolves does end with
`loadingAll` false, so failures do not block the aggregate signal;
(c) a resource settling (in particular failing) never changes a sibling
resource's state. -/
theorem run_aggregate_done {k : Nat} (tr : List (Event k))
    (outcomes : Fin k → Except String Json) (s : OrchState k)
    (i j : Fin k) (o : Except String Json) :
    (validTrace tr = true →
      (execTrace (initOrch k) tr).loadingAll = false →
      ∀ r, ((execTrace (initOrch k) tr).blocks r).loading = false) ∧
    (execTrace (initOrch k)
        ((List.finRange k).map (fun r => Event.settle r (outcomes r)) ++
          [Event.allDone])).loadingAll = false ∧
    (j ≠ i → (settleStep s i o).blocks j = s.blocks j) := by
  refine ⟨?_, ?_, ?_⟩
  · intro hval
    refine run_settled_invariant tr [] (initOrch k) hval ?_ ?_
    · intro h
      exact absurd h (by simp [initOrch])
    · intro _ r hr
      exact nomatch hr
  · rw [execTrace_append]
    have ha : (execTrace (initOrch k)
        ((List.finRange k).map (fun r => Event.settle r (outcomes r)))).alive
        = true := by
      rw [execTrace_settles_alive]
      rfl
    show (allDoneStep _).loadingAll = false
    rw [allDoneStep_of_alive ha]
  · intro hne
    by_cases ha : s.alive = true
    · rw [settleStep_of_alive ha]
      simp only [if_neg hne]
    · rw [settleStep_of_dead (by simpa using ha)]

/-- Witness for C2 on the concrete two-resource demo run: resource 0
loads, resource 1 fails, the aggregate still completes, the invariant
applies to the valid demo trace, and a failing settle of resource 0
leaves resource 1 untouched. -/
theorem run_aggregate_done_witness :
    ((execTrace (initOrch 2) demoTrace).blocks 0).loading = false ∧
    (execTrace (initOrch 2) demoTrace).loadingAll = false ∧
    (settleStep (initOrch 2) 0 (Except.error "boom")).blocks 1 =
      (initOrch 2).blocks 1 := by
  have h := run_aggregate_done (k := 2) demoTrace
    (fun _ => Except.ok (Json.arr [])) (initOrch 2) 0 1 (Except.error "boom")
  exact ⟨h.1 rfl rfl 0, rfl, h.2.2 (by decide)⟩

/-- C8. A non-success response makes `loadBlock` throw the detail
composed of status code, status text and body text (when present);
through `wrap` the owning resource — and only it — transitions to the
Failed state carrying that detail. -/
theorem fetch_failure_detail (r : ApiResponse) (h : resOk r = false) :
    loadBlock r = Except.error (errDetail r) ∧
    errDetail r =
      jsTrim (toString r.status ++ " " ++ r.statusText ++ " " ++
        r.textResult.getD "") ∧
    (∀ (k : Nat) (s : OrchState k) (i : Fin k), s.alive = true →
      (settleStep s i (loadBlock r)).blocks i =
        terminalBlock (Except.error (errDetail r))) ∧
    (∀ (k : Nat) (s : OrchState k) (i j : Fin k), j ≠ i →
      (settleStep s i (loadBlock r)).blocks j = s.blocks j) := by
  have hlb : loadBlock r = Except.error (errDetail r) := by
    unfold loadBlock
    rw [h]
    rfl
  refine ⟨hlb, rfl, ?_, ?_⟩
  · intro k s i ha
    rw [settleStep_of_alive ha, hlb]
    simp
  · intro k s i j hne
    by_cases ha : s.alive = true
    · rw [settleStep_of_alive ha]
      simp only [if_neg hne]
    · rw [settleStep_of_dead (by simpa using ha)]

/-- Witness for C8 at the sample HTTP 500 response, inside a live
two-resource run. -/
theorem fetch_failure_detail_witness :
    loadBlock sampleFailResp =
      Except.error "500 Internal Server Error boom" ∧
    (settleStep (initOrch 2) 0 (loadBlock sampleFailResp)).blocks 0 =
      { loading := false, items := Json.arr []
        error := some "500 Internal Server Error boom" } ∧
    (settleStep (initOrch 2) 0 (loadBlock sampleFailResp)).blocks 1 =
      (initOrch 2).blocks 1 := by
  have h := fetch_failure_detail sampleFailResp rfl
  refine ⟨?_, ?_, h.2.2.2 2 (initOrch 2) 0 1 (by decide)⟩
  · rw [h.1]
    have he : errDetail sampleFailResp = "500 Internal Server Error boom" := by
      decide
    rw [he]
  · rw [h.2.2.1 2 (initOrch 2) 0 rfl]
    show terminalBlock (Except.error (errDetail sampleFailResp)) = _
    have he : errDetail sampleFailResp = "500 Internal Server Error boom" := by
      decide
    rw [he]
    rfl

/-- C9 counterexample: a success response whose JSON body is an object
with no `items` field is reported Loaded with the empty item list
(`error` absent), not Failed. -/
theorem success_no_items_is_loaded_empty :
    resOk sampleNoItemsResp = true ∧
    loadBlock sampleNoItemsResp = Except.ok (Json.arr []) ∧
    terminalBlock (loadBlock sampleNoItemsResp) =
      { loading := false, items := Json.arr [], error := none } :=
  ⟨rfl, rfl, rfl⟩

/-- C9 amended: a success response whose body is not parseable JSON is
Failed with the parse error as detail — never Loaded; and a JSON `null`
body is Failed with the member-access TypeError. (A parseable JSON body
without a truthy `items` field, however, yields Loaded with `[]`.) -/
theorem success_parse_failure_fails (r : ApiResponse)
    (hk : resOk r = true) :
    (∀ m, r.jsonResult = Except.error m → loadBlock r = Except.error m) ∧
    (r.jsonResult = Except.ok Json.null →
      loadBlock r =
        Except.error "Cannot read properties of null (reading items)") := by
  constructor
  · intro m hm
    unfold loadBlock
    rw [hk, hm]
    rfl
  · intro hm
    unfold loadBlock
    rw [hk, hm]
    rfl

/-- Witness for C9 at the sample non-JSON success response. -/
theorem success_parse_failure_fails_witness :
    loadBlock sampleBadJsonResp =
      Except.error "Unexpected token < in JSON at position 0" :=
  (success_parse_failure_fails sampleBadJsonResp rfl).1 _ rfl

end RetroHunter
